import Mathlib

/-!
Shallow embedding of the webhook protocol handler of the
`external-dns-glesys` repository (`webhook/webhook.go`), together with
proofs about its media-type negotiation, header validation and the four
HTTP operations (Records, ApplyChanges, AdjustEndpoints, Negotiate).

The embedding mirrors the Go source:
* machine strings are Lean `String`s;
* the `net/http` response writer is an explicit state (`Response`):
  `Header().Set` mutates a pending header map, the first `WriteHeader`
  (or the first body `Write`, which implies status 200) snapshots the
  pending headers as the headers actually sent, later `WriteHeader`
  calls are ignored (as `net/http` does), later `Header().Set` calls
  touch only the pending map and are never seen by the client;
* request/response JSON bodies: the wire text of a request has already
  been parsed into a `Json` tree (decode failures of the Go
  `encoding/json` layer are represented by trees of the wrong shape);
  response bodies are strings produced by `renderJson`;
* `encoding/json` is external to the repository; its calls are modelled
  as follows: `Decode` into `plan.Changes` / `[]*endpoint.Endpoint` by
  `decodeChanges` / `decodeEndpoints`, `json.Marshal` and
  `json.NewEncoder(w).Encode` (which appends a trailing newline) as a
  `Marshaller` parameter whose default instance `defaultMarshaller`
  renders the model JSON and never fails, and `json.Marshal` of the
  opaque domain-filter value as `marshalDomainFilter` on an
  `Option Json` (with `none` standing for a value the marshaller
  rejects);
* the `Provider` interface is a record of pure outcome functions: each
  field holds exactly the value/error pair the corresponding Go call
  returns.
-/

namespace ExternalDnsGlesys

/-- A JSON value, the parsed form of a request or response body. -/
inductive Json where
  | null : Json
  | bool (b : Bool) : Json
  | num (n : Int) : Json
  | str (s : String) : Json
  | arr (elems : List Json) : Json
  | obj (fields : List (String × Json)) : Json
deriving Repr

/-- Escape a string for JSON output (quote and backslash). -/
def escapeJsonString (s : String) : String :=
  s.foldl
    (fun acc c =>
      if c = '\"' then acc ++ "\\\""
      else if c = '\\' then acc ++ "\\\\"
      else acc ++ String.singleton c)
    ""

mutual

/-- Render a JSON tree to its wire text, as `encoding/json` marshalling does. -/
def renderJson : Json → String
  | Json.null => "null"
  | Json.bool b => if b then "true" else "false"
  | Json.num n => toString n
  | Json.str s => "\"" ++ escapeJsonString s ++ "\""
  | Json.arr xs => "[" ++ renderJsonArr xs ++ "]"
  | Json.obj fs => "\x7b" ++ renderJsonObj fs ++ "\x7d"

/-- Render the comma-separated elements of a JSON array. -/
def renderJsonArr : List Json → String
  | [] => ""
  | [x] => renderJson x
  | x :: y :: xs => renderJson x ++ "," ++ renderJsonArr (y :: xs)

/-- Render the comma-separated members of a JSON object. -/
def renderJsonObj : List (String × Json) → String
  | [] => ""
  | [kv] => "\"" ++ escapeJsonString kv.1 ++ "\":" ++ renderJson kv.2
  | kv :: kv2 :: fs =>
      "\"" ++ escapeJsonString kv.1 ++ "\":" ++ renderJson kv.2 ++ ","
        ++ renderJsonObj (kv2 :: fs)

end

/-! ## Media-type negotiation (`webhook.go` lines 31-71) -/

/-- `mediaTypeFormat` constant. -/
def mediaTypeFormat : String := "application/external.dns.webhook+json;"

/-- `contentTypeHeader` constant. -/
def contentTypeHeader : String := "Content-Type"

/-- `contentTypePlaintext` constant. -/
def contentTypePlaintext : String := "text/plain"

/-- `acceptHeader` constant. -/
def acceptHeader : String := "Accept"

/-- `varyHeader` constant. -/
def varyHeader : String := "Vary"

/-- `supportedMediaVersions` constant: the configured comma-separated list. -/
def supportedMediaVersions : String := "1"

/-- `mediaTypeVersion(v)`: builds the versioned media-type string. -/
def mediaTypeVersion (v : String) : String :=
  mediaTypeFormat ++ "version=" ++ v

/-- The `var mediaTypeVersion1` of the source. -/
def mediaTypeVersion1 : String := mediaTypeVersion "1"

/-- `(m mediaType) Is(headerValue)`: exact string equality. -/
def mediaTypeIs (m headerValue : String) : Bool :=
  m == headerValue

/-- The `for _, v := range strings.Split(...)` loop of
`checkAndGetMediaTypeHeaderValue`: first supported version whose media
type equals the header value. -/
def findMatchingVersion : List String → String → Option String
  | [], _ => none
  | v :: vs, value =>
      if mediaTypeIs (mediaTypeVersion v) value then some v
      else findMatchingVersion vs value

/-- A single-quote character, used in the Go error-message format. -/
def quoteChar : String := String.singleton (Char.ofNat 39)

/-- Split a character list around every occurrence of `sep`. -/
def splitCharList (sep : Char) : List Char → List (List Char)
  | [] => [[]]
  | c :: cs =>
      let rest := splitCharList sep cs
      if c = sep then [] :: rest
      else
        match rest with
        | [] => [[c]]
        | g :: gs => (c :: g) :: gs

/-- Model of Go `strings.Split(s, sep)` for a one-character separator
(the source always splits on `","`). -/
def stringsSplit (s : String) (sep : Char) : List String :=
  (splitCharList sep s.data).map (fun cs => String.mk cs)

/-- The `supportedMediaTypesString` built by the second loop of
`checkAndGetMediaTypeHeaderValue`.  Note the source compares the loop
index with `len(supportedMediaVersions)-1`, the length of the
configuration *string*, when choosing the separator. -/
def supportedMediaTypesString : String :=
  ((stringsSplit supportedMediaVersions ',').enum.foldl
    (fun acc iv =>
      acc ++ mediaTypeVersion iv.2 ++
        (if iv.1 < supportedMediaVersions.length - 1 then ", " else ""))
    "")

/-- The `fmt.Errorf` message of `checkAndGetMediaTypeHeaderValue` on a
failed negotiation. -/
def unsupportedMediaTypeMessage (value : String) : String :=
  "unsupported media type version: " ++ quoteChar ++ value ++ quoteChar
    ++ ". Supported media types are: " ++ quoteChar
    ++ supportedMediaTypesString ++ quoteChar

/-- `checkAndGetMediaTypeHeaderValue(value)`: returns the first supported
version whose versioned media type equals `value` exactly, else the
`unsupported media type version` error. -/
def checkAndGetMediaTypeHeaderValue (value : String) : Except String String :=
  match findMatchingVersion (stringsSplit supportedMediaVersions ',') value with
  | some v => Except.ok v
  | none => Except.error (unsupportedMediaTypeMessage value)

/-! ## Endpoint / Changes data model

`endpoint.Endpoint` and `plan.Changes` come from the external
`sigs.k8s.io/external-dns` module; the spec treats them as opaque
payloads that are only marshalled/unmarshalled.  They are modelled with
representative fields, and JSON (de)serialization mirrors Go struct
(un)marshalling: absent fields take zero values, wrongly-typed fields
fail, `null` decodes to the zero value. -/

/-- Model of `endpoint.Endpoint` (external value object). -/
structure Endpoint where
  dnsName : String
  targets : List String
  recordType : String
  recordTTL : Int
deriving Repr, DecidableEq

/-- Model of `plan.Changes`: four sequences of endpoints. -/
structure Changes where
  create : List Endpoint
  updateOld : List Endpoint
  updateNew : List Endpoint
  delete : List Endpoint
deriving Repr, DecidableEq

/-- Look up an object member by exact key, as Go field matching does for
exact-case keys. -/
def getField (fs : List (String × Json)) (k : String) : Option Json :=
  (fs.find? (fun kv => kv.1 == k)).map (fun kv => kv.2)

/-- Unmarshal a JSON value into a Go `string`. -/
def jsonAsString : Json → Except String String
  | Json.str s => Except.ok s
  | Json.null => Except.ok ""
  | _ => Except.error "json: cannot unmarshal value into Go value of type string"

/-- Unmarshal a JSON value into a Go `int64`. -/
def jsonAsInt : Json → Except String Int
  | Json.num n => Except.ok n
  | Json.null => Except.ok 0
  | _ => Except.error "json: cannot unmarshal value into Go value of type int64"

/-- Unmarshal a JSON value into a Go `[]string`. -/
def jsonAsStringList : Json → Except String (List String)
  | Json.null => Except.ok []
  | Json.arr xs => xs.mapM jsonAsString
  | _ => Except.error "json: cannot unmarshal value into Go value of type []string"

/-- Decode one object member into a string field (zero value if absent). -/
def decodeStringField (fs : List (String × Json)) (k : String) :
    Except String String :=
  match getField fs k with
  | none => Except.ok ""
  | some j => jsonAsString j

/-- Unmarshal a JSON value into an `endpoint.Endpoint`. -/
def endpointFromJson : Json → Except String Endpoint
  | Json.obj fs => do
      let dn ← decodeStringField fs "dnsName"
      let ts ←
        match getField fs "targets" with
        | none => Except.ok []
        | some j => jsonAsStringList j
      let rt ← decodeStringField fs "recordType"
      let ttl ←
        match getField fs "recordTTL" with
        | none => Except.ok 0
        | some j => jsonAsInt j
      Except.ok ⟨dn, ts, rt, ttl⟩
  | _ => Except.error "json: cannot unmarshal value into Go value of type endpoint.Endpoint"

/-- Marshal an `endpoint.Endpoint` to JSON. -/
def endpointToJson (e : Endpoint) : Json :=
  Json.obj
    [("dnsName", Json.str e.dnsName),
     ("targets", Json.arr (e.targets.map Json.str)),
     ("recordType", Json.str e.recordType),
     ("recordTTL", Json.num e.recordTTL)]

/-- Unmarshal a JSON value into `[]*endpoint.Endpoint` (the `var pve`
decode target of `AdjustEndpoints`). -/
def decodeEndpoints : Json → Except String (List Endpoint)
  | Json.null => Except.ok []
  | Json.arr xs => xs.mapM endpointFromJson
  | _ => Except.error "json: cannot unmarshal value into Go value of type []*endpoint.Endpoint"

/-- Marshal `[]*endpoint.Endpoint` to JSON. -/
def endpointsToJson (eps : List Endpoint) : Json :=
  Json.arr (eps.map endpointToJson)

/-- Decode one object member into an endpoint-list field. -/
def decodeEndpointsField (fs : List (String × Json)) (k : String) :
    Except String (List Endpoint) :=
  match getField fs k with
  | none => Except.ok []
  | some j => decodeEndpoints j

/-- Unmarshal a JSON value into `plan.Changes` (the `var changes` decode
target of `ApplyChanges`). -/
def decodeChanges : Json → Except String Changes
  | Json.null => Except.ok ⟨[], [], [], []⟩
  | Json.obj fs => do
      let c ← decodeEndpointsField fs "Create"
      let uo ← decodeEndpointsField fs "UpdateOld"
      let un ← decodeEndpointsField fs "UpdateNew"
      let d ← decodeEndpointsField fs "Delete"
      Except.ok ⟨c, uo, un, d⟩
  | _ => Except.error "json: cannot unmarshal value into Go value of type plan.Changes"

/-! ## The `net/http` response-writer state -/

/-- State of an `http.ResponseWriter` during one request.
`pending` is the mutable `Header()` map; `status`/`sent` are what has
actually gone out on the wire (`none` status: nothing written yet);
`body` is the bytes written so far. -/
structure Response where
  pending : List (String × String)
  status : Option Nat
  sent : List (String × String)
  body : String
deriving Repr, DecidableEq

/-- A fresh response writer, before the handler runs. -/
def emptyResponse : Response := ⟨[], none, [], ""⟩

/-- `Header().Set(k, v)`: replace-or-add on the pending header map. -/
def setAssoc : List (String × String) → String → String → List (String × String)
  | [], k, v => [(k, v)]
  | (k0, v0) :: hs, k, v =>
      if k0 == k then (k, v) :: hs else (k0, v0) :: setAssoc hs k v

/-- `w.Header().Set(k, v)`. -/
def setHeader (w : Response) (k v : String) : Response :=
  { w with pending := setAssoc w.pending k v }

/-- `w.WriteHeader(code)`: sends the status line and a snapshot of the
pending headers; a second call is ignored (net/http logs
`superfluous WriteHeader` and drops it). -/
def writeHeader (w : Response) (code : Nat) : Response :=
  match w.status with
  | some _ => w
  | none => { w with status := some code, sent := w.pending }

/-- `w.Write(bytes)` / `fmt.Fprint(w, s)`: an implicit
`WriteHeader(200)` on first write, then append to the body. -/
def write (w : Response) (s : String) : Response :=
  match w.status with
  | some _ => { w with body := w.body ++ s }
  | none =>
      { w with status := some 200, sent := w.pending, body := w.body ++ s }

/-- Header lookup on a header list (for stating what the client sees). -/
def lookupHeader (hs : List (String × String)) (k : String) : Option String :=
  (hs.find? (fun kv => kv.1 == k)).map (fun kv => kv.2)

/-! ## Requests, provider, marshaller -/

/-- The parts of an `http.Request` the handlers read: the two headers
(`""` when absent — `r.Header.Get` returns the empty string then) and
the parsed JSON body for POST handlers. -/
structure Request where
  contentType : String
  accept : String
  body : Json
deriving Repr

/-- The external `provider.Provider` collaborator: each field is the
outcome of the corresponding call.  `Records` and `AdjustEndpoints`
return a value *and* an error, as in Go; `getDomainFilter` is the opaque
domain-filter value as JSON, with `none` standing for a value
`json.Marshal` rejects. -/
structure Provider where
  records : List Endpoint × Option String
  applyChanges : Changes → Option String
  adjustEndpoints : List Endpoint → List Endpoint × Option String
  getDomainFilter : Option Json
deriving Inhabited

/-- The marshalling half of `encoding/json` as used by the handlers:
`marshalEndpoints` is `json.Marshal` (bytes plus error — the bytes are
used by `AdjustEndpoints` even when the error is non-nil, as in the
source), `marshalRecords` is the marshalling step of
`json.NewEncoder(w).Encode` (the encoder then writes the bytes followed
by a newline). -/
structure Marshaller where
  marshalEndpoints : List Endpoint → String × Option String
  marshalRecords : List Endpoint → Except String String

/-- The real `encoding/json` behaviour on the model: render the JSON
tree; marshalling of endpoint slices never fails. -/
def defaultMarshaller : Marshaller where
  marshalEndpoints := fun eps => (renderJson (endpointsToJson eps), none)
  marshalRecords := fun eps => Except.ok (renderJson (endpointsToJson eps))

/-- `json.Marshal(p.provider.GetDomainFilter())`. -/
def marshalDomainFilter : Option Json → Except String String
  | some j => Except.ok (renderJson j)
  | none => Except.error "json: unsupported type"

/-! ## The handlers (`webhook.go` lines 94-253)

Each handler is a function from provider, fresh-or-current response
state and request to the final response state.  Logging calls have no
observable effect and are omitted; the `Fatalf` on a failed error-body
write cannot fire in the model (writes always succeed). -/

/-- `headerCheck(isContentType, w, r)`: returns the updated response
state and the local error (`none` on success, when the response is
untouched). -/
def headerCheck (isContentType : Bool) (w : Response) (r : Request) :
    Response × Option String :=
  let header := if isContentType then r.contentType else r.accept
  if header.length = 0 then
    let w := setHeader w contentTypeHeader contentTypePlaintext
    let w := writeHeader w 406
    let msg := "client must provide " ++
      (if isContentType then "a content type" else "an accept header")
    (write w msg, some msg)
  else
    match checkAndGetMediaTypeHeaderValue header with
    | Except.ok _ => (w, none)
    | Except.error e =>
        let w := setHeader w contentTypeHeader contentTypePlaintext
        let w := writeHeader w 415
        let msg := "client must provide a valid versioned media type in the "
          ++ (if isContentType then "content type" else "accept header")
          ++ ": " ++ e
        (write w msg, some msg)

/-- `contentTypeHeaderCheck(w, r)`. -/
def contentTypeHeaderCheck (w : Response) (r : Request) :
    Response × Option String :=
  headerCheck true w r

/-- `acceptHeaderCheck(w, r)`. -/
def acceptHeaderCheck (w : Response) (r : Request) :
    Response × Option String :=
  headerCheck false w r

/-- `Records(w, r)`: accept-header gate, `provider.Records`, then
`json.NewEncoder(w).Encode(records)` (which appends a newline after the
marshalled bytes; a marshal error there leaves nothing written, so the
subsequent `WriteHeader(500)` takes effect). -/
def Records (m : Marshaller) (p : Provider) (w : Response) (r : Request) :
    Response :=
  match acceptHeaderCheck w r with
  | (w, some _) => w
  | (w, none) =>
    let (records, err) := p.records
    match err with
    | some _ => writeHeader w 500
    | none =>
      let w := setHeader w contentTypeHeader mediaTypeVersion1
      let w := setHeader w varyHeader contentTypeHeader
      match m.marshalRecords records with
      | Except.ok bytes => write w (bytes ++ "\n")
      | Except.error _ => writeHeader w 500

/-- `ApplyChanges(w, r)`: content-type gate, body decode into
`plan.Changes`, `provider.ApplyChanges`, then `204` / `500`. -/
def ApplyChanges (p : Provider) (w : Response) (r : Request) : Response :=
  match contentTypeHeaderCheck w r with
  | (w, some _) => w
  | (w, none) =>
    match decodeChanges r.body with
    | Except.error e =>
        let w := setHeader w contentTypeHeader contentTypePlaintext
        let w := writeHeader w 400
        write w ("error decoding changes: " ++ e)
    | Except.ok changes =>
        match p.applyChanges changes with
        | some _ =>
            let w := setHeader w contentTypeHeader contentTypePlaintext
            writeHeader w 500
        | none => writeHeader w 204

/-- `AdjustEndpoints(w, r)`: content-type gate then accept gate, body
decode into `[]*endpoint.Endpoint`, `provider.AdjustEndpoints`; on a
provider error the source sets `text/plain` and `WriteHeader(500)` but
does **not** return, so it still marshals the returned slice
(discarding the marshal error with `out, _ :=`), sets the media-type
and `Vary` headers on the pending map and writes the bytes. -/
def AdjustEndpoints (m : Marshaller) (p : Provider) (w : Response)
    (r : Request) : Response :=
  match contentTypeHeaderCheck w r with
  | (w, some _) => w
  | (w, none) =>
  match acceptHeaderCheck w r with
  | (w, some _) => w
  | (w, none) =>
    match decodeEndpoints r.body with
    | Except.error e =>
        let w := setHeader w contentTypeHeader contentTypePlaintext
        let w := writeHeader w 400
        write w ("failed to decode request body: " ++ e)
    | Except.ok pve =>
        let (pve, err) := p.adjustEndpoints pve
        let w :=
          match err with
          | some _ => writeHeader (setHeader w contentTypeHeader contentTypePlaintext) 500
          | none => w
        let (out, _) := m.marshalEndpoints pve
        let w := setHeader w contentTypeHeader mediaTypeVersion1
        let w := setHeader w varyHeader contentTypeHeader
        write w out

/-- `Negotiate(w, r)`: accept-header gate,
`json.Marshal(provider.GetDomainFilter())`, `500` on marshal failure,
else media-type content-type (no `Vary`) and the marshalled bytes. -/
def Negotiate (p : Provider) (w : Response) (r : Request) : Response :=
  match acceptHeaderCheck w r with
  | (w, some _) => w
  | (w, none) =>
    match marshalDomainFilter p.getDomainFilter with
    | Except.error _ => writeHeader w 500
    | Except.ok bytes =>
        let w := setHeader w contentTypeHeader mediaTypeVersion1
        write w bytes

/-! ## Abbreviations for response states and concrete test fixtures -/

/-- The response state after an error path that sets
`Content-Type: text/plain`, writes status `code` and then writes `msg`
(possibly empty) to a fresh response. -/
def plainTextErrorResponse (code : Nat) (msg : String) : Response :=
  ⟨[(contentTypeHeader, contentTypePlaintext)], some code,
   [(contentTypeHeader, contentTypePlaintext)], msg⟩

/-- The response state of a bare `WriteHeader(code)` on a fresh response. -/
def bareStatusResponse (code : Nat) : Response :=
  ⟨[], some code, [], ""⟩

/-- A sample endpoint for concrete instantiations. -/
def sampleEndpoint : Endpoint :=
  ⟨"a.example.org", ["1.2.3.4"], "A", 300⟩

/-- A provider whose calls all succeed, returns no records, adjusts
endpoints to themselves, and has a marshalable domain filter. -/
def identityProvider : Provider where
  records := ([], none)
  applyChanges := fun _ => none
  adjustEndpoints := fun xs => (xs, none)
  getDomainFilter := some (Json.obj [("filters", Json.arr [Json.str "example.org"])])

/-- A provider whose calls all fail and whose domain filter cannot be
marshalled. -/
def failingProvider : Provider where
  records := ([], some "records backend error")
  applyChanges := fun _ => some "apply backend error"
  adjustEndpoints := fun xs => (xs, some "adjust backend error")
  getDomainFilter := none

/-- A marshaller whose marshalling fails, returning no bytes and an
error, as `json.Marshal` does on an unsupported value. -/
def failingMarshaller : Marshaller where
  marshalEndpoints := fun _ => ("", some "json: unsupported type")
  marshalRecords := fun _ => Except.error "json: unsupported type"

/-- A GET-style request with only a valid `Accept` header. -/
def validGetRequest : Request :=
  ⟨"", mediaTypeVersion1, Json.null⟩

/-- A request with both headers valid and a one-endpoint array body. -/
def validAdjustRequest : Request :=
  ⟨mediaTypeVersion1, mediaTypeVersion1, endpointsToJson [sampleEndpoint]⟩

/-- A request with a valid content type and a one-creation changes body. -/
def validChangesRequest : Request :=
  ⟨mediaTypeVersion1, "",
   Json.obj [("Create", endpointsToJson [sampleEndpoint])]⟩

/-- A request with both headers absent. -/
def missingHeadersRequest : Request :=
  ⟨"", "", Json.null⟩

/-- A request with both headers present but not a supported media type. -/
def badHeadersRequest : Request :=
  ⟨"application/json", "application/json", Json.null⟩

/-- A request with valid headers whose body is not an array/object. -/
def badBodyRequest : Request :=
  ⟨mediaTypeVersion1, mediaTypeVersion1, Json.str "x"⟩

/-! ## Helper lemmas -/

/-- The configured version list is the singleton `["1"]`. -/
theorem stringsSplit_supported : stringsSplit supportedMediaVersions ',' = ["1"] := rfl

/-- The supported-media-types list string is the single versioned media type. -/
theorem supportedMediaTypesString_eq :
    supportedMediaTypesString = mediaTypeVersion1 := rfl

/-- Closed form of the negotiation function: exact equality with the one
supported media type, first match returned, fixed error message otherwise. -/
theorem checkAndGet_spec (s : String) :
    checkAndGetMediaTypeHeaderValue s =
      if mediaTypeVersion1 = s then Except.ok "1"
      else Except.error (unsupportedMediaTypeMessage s) := by
  simp only [checkAndGetMediaTypeHeaderValue, stringsSplit_supported,
    findMatchingVersion, mediaTypeIs, mediaTypeVersion1]
  by_cases h : mediaTypeVersion "1" = s
  · simp [h]
  · simp [h]

/-- A successful negotiation pins the header to the one supported media
type and the returned version to `"1"`. -/
theorem checkAndGet_ok_elim {s v : String}
    (h : checkAndGetMediaTypeHeaderValue s = Except.ok v) :
    s = mediaTypeVersion1 ∧ v = "1" := by
  rw [checkAndGet_spec] at h
  by_cases hs : mediaTypeVersion1 = s
  · simp [hs] at h
    exact ⟨hs.symm, h.symm⟩
  · simp [hs] at h

/-- The supported media type is a nonempty string. -/
theorem mediaTypeVersion1_length_pos : mediaTypeVersion1.length ≠ 0 := by decide

/-- `headerCheck` succeeds and leaves the response untouched when the
relevant header negotiates. -/
theorem headerCheck_ok {v : String} (b : Bool) (w : Response) (r : Request)
    (h : checkAndGetMediaTypeHeaderValue (if b then r.contentType else r.accept) =
      Except.ok v) :
    headerCheck b w r = (w, none) := by
  obtain ⟨he, -⟩ := checkAndGet_ok_elim h
  simp only [headerCheck, he]
  rw [if_neg mediaTypeVersion1_length_pos]
  rw [checkAndGet_spec, if_pos rfl]

/-- `headerCheck` on a fresh response with the relevant header absent:
`406`, `text/plain`, missing-header message. -/
theorem headerCheck_missing (b : Bool) (r : Request)
    (h : (if b then r.contentType else r.accept) = "") :
    headerCheck b emptyResponse r =
      (plainTextErrorResponse 406
        ("client must provide " ++
          (if b then "a content type" else "an accept header")),
       some ("client must provide " ++
          (if b then "a content type" else "an accept header"))) := by
  simp [headerCheck, h, emptyResponse, setHeader, setAssoc, writeHeader, write,
    plainTextErrorResponse]

/-- `headerCheck` on a fresh response with the relevant header present
but not negotiating: `415`, `text/plain`, message embedding the
negotiation error. -/
theorem headerCheck_unsupported {e : String} (b : Bool) (r : Request)
    (hne : (if b then r.contentType else r.accept) ≠ "")
    (he : checkAndGetMediaTypeHeaderValue (if b then r.contentType else r.accept) =
      Except.error e) :
    headerCheck b emptyResponse r =
      (plainTextErrorResponse 415
        ("client must provide a valid versioned media type in the " ++
          (if b then "content type" else "accept header") ++ ": " ++ e),
       some ("client must provide a valid versioned media type in the " ++
          (if b then "content type" else "accept header") ++ ": " ++ e)) := by
  have hlen : ((if b then r.contentType else r.accept)).length ≠ 0 := by
    intro h0
    apply hne
    cases hs : (if b then r.contentType else r.accept) with
    | mk data =>
        rw [hs] at h0
        cases data with
        | nil => rfl
        | cons c cs => simp [String.length] at h0
  simp only [headerCheck]
  rw [if_neg hlen, he]
  simp [emptyResponse, setHeader, setAssoc, writeHeader, write,
    plainTextErrorResponse]

/-- Accumulator form: traversing a mapped list with a left inverse. -/
theorem mapM_loop_roundtrip {α β γ : Type} (f : α → β) (g : β → Except γ α)
    (h : ∀ x, g (f x) = Except.ok x) :
    ∀ (xs : List α) (acc : List α),
      List.mapM.loop g (xs.map f) acc = Except.ok (acc.reverse ++ xs) := by
  intro xs
  induction xs with
  | nil => intro acc; simp only [List.map_nil, List.mapM.loop, List.append_nil]; rfl
  | cons x xs ih =>
      intro acc
      simp only [List.map_cons, List.mapM.loop, h x]
      rw [show ((Except.ok x : Except γ α) >>= fun y =>
            List.mapM.loop g (xs.map f) (y :: acc)) =
          List.mapM.loop g (xs.map f) (x :: acc) from rfl]
      rw [ih (x :: acc)]
      simp

/-- Mapping then traversing with a left inverse recovers the list. -/
theorem mapM_map_roundtrip {α β γ : Type} (f : α → β) (g : β → Except γ α)
    (h : ∀ x, g (f x) = Except.ok x) :
    ∀ xs : List α, (xs.map f).mapM g = Except.ok xs := by
  intro xs
  rw [show (xs.map f).mapM g = List.mapM.loop g (xs.map f) [] from rfl]
  simpa using mapM_loop_roundtrip f g h xs []

/-- Traversing string-wrapped JSON values recovers the strings. -/
theorem mapM_loop_str (ts : List String) :
    List.mapM.loop jsonAsString (ts.map Json.str) [] = Except.ok ts := by
  simpa using mapM_loop_roundtrip Json.str jsonAsString (fun s => rfl) ts []

/-- Unmarshalling a marshalled endpoint recovers it. -/
theorem endpointFromJson_roundtrip (e : Endpoint) :
    endpointFromJson (endpointToJson e) = Except.ok e := by
  cases e with
  | mk dn ts rt ttl =>
    simp [endpointFromJson, endpointToJson, getField, decodeStringField,
      jsonAsString, jsonAsStringList, jsonAsInt, mapM_loop_str]
    rfl

/-- Traversing marshalled endpoints recovers them. -/
theorem mapM_loop_endpoint (eps : List Endpoint) :
    List.mapM.loop endpointFromJson (eps.map endpointToJson) [] = Except.ok eps := by
  simpa using
    mapM_loop_roundtrip endpointToJson endpointFromJson endpointFromJson_roundtrip eps []

/-- Unmarshalling a marshalled endpoint list recovers it. -/
theorem decodeEndpoints_roundtrip (eps : List Endpoint) :
    decodeEndpoints (endpointsToJson eps) = Except.ok eps := by
  simp [decodeEndpoints, endpointsToJson, mapM_loop_endpoint]

/-- `AdjustEndpoints` after both gates pass and the body decodes, when
the provider call reports an error: the `500` status and `text/plain`
header are sent, the later header assignments land only in the pending
map, and the marshalled bytes are written. -/
theorem adjustEndpoints_provider_error {v w : String}
    (m : Marshaller) (p : Provider) (r : Request)
    (eps res : List Endpoint) (e out : String) (oerr : Option String)
    (hct : checkAndGetMediaTypeHeaderValue r.contentType = Except.ok v)
    (hacc : checkAndGetMediaTypeHeaderValue r.accept = Except.ok w)
    (hdec : decodeEndpoints r.body = Except.ok eps)
    (hp : p.adjustEndpoints eps = (res, some e))
    (hm : m.marshalEndpoints res = (out, oerr)) :
    AdjustEndpoints m p emptyResponse r =
      ⟨[(contentTypeHeader, mediaTypeVersion1), (varyHeader, contentTypeHeader)],
       some 500, [(contentTypeHeader, contentTypePlaintext)], out⟩ := by
  have h1 := headerCheck_ok true emptyResponse r hct
  have h2 := headerCheck_ok false emptyResponse r hacc
  simp only [AdjustEndpoints, contentTypeHeaderCheck, acceptHeaderCheck,
    h1, h2, hdec, hp, hm]
  simp [emptyResponse, setHeader, setAssoc, writeHeader, write,
    contentTypeHeader, contentTypePlaintext, varyHeader]

/-- `AdjustEndpoints` after both gates pass and the body decodes, when
the provider call succeeds: `200` with the media-type and `Vary` headers
and the marshalled bytes — whatever error the marshaller reported. -/
theorem adjustEndpoints_provider_ok {v w : String}
    (m : Marshaller) (p : Provider) (r : Request)
    (eps res : List Endpoint) (out : String) (oerr : Option String)
    (hct : checkAndGetMediaTypeHeaderValue r.contentType = Except.ok v)
    (hacc : checkAndGetMediaTypeHeaderValue r.accept = Except.ok w)
    (hdec : decodeEndpoints r.body = Except.ok eps)
    (hp : p.adjustEndpoints eps = (res, none))
    (hm : m.marshalEndpoints res = (out, oerr)) :
    AdjustEndpoints m p emptyResponse r =
      ⟨[(contentTypeHeader, mediaTypeVersion1), (varyHeader, contentTypeHeader)],
       some 200, [(contentTypeHeader, mediaTypeVersion1), (varyHeader, contentTypeHeader)],
       out⟩ := by
  have h1 := headerCheck_ok true emptyResponse r hct
  have h2 := headerCheck_ok false emptyResponse r hacc
  simp only [AdjustEndpoints, contentTypeHeaderCheck, acceptHeaderCheck,
    h1, h2, hdec, hp, hm]
  simp [emptyResponse, setHeader, setAssoc, writeHeader, write,
    contentTypeHeader, contentTypePlaintext, varyHeader]

/-- `Records` after the accept gate, when the provider succeeds and the
encoder marshals: `200`, media-type and `Vary` headers, and the bytes
followed by the encoder's newline. -/
theorem records_success {v : String} (m : Marshaller) (p : Provider) (r : Request)
    (recs : List Endpoint) (bytes : String)
    (hacc : checkAndGetMediaTypeHeaderValue r.accept = Except.ok v)
    (hrec : p.records = (recs, none))
    (hm : m.marshalRecords recs = Except.ok bytes) :
    Records m p emptyResponse r =
      ⟨[(contentTypeHeader, mediaTypeVersion1), (varyHeader, contentTypeHeader)],
       some 200,
       [(contentTypeHeader, mediaTypeVersion1), (varyHeader, contentTypeHeader)],
       bytes ++ "\n"⟩ := by
  have h1 := headerCheck_ok false emptyResponse r hacc
  simp only [Records, acceptHeaderCheck, h1, hrec, hm]
  simp [emptyResponse, setHeader, setAssoc, writeHeader, write,
    contentTypeHeader, contentTypePlaintext, varyHeader]

/-- `Records` after the accept gate, when the provider succeeds but the
encoder's marshal step fails: nothing was written yet, so the
`WriteHeader(500)` takes effect (with the already-set pending headers)
and the body stays empty. -/
theorem records_encode_failure {v : String} (m : Marshaller) (p : Provider)
    (r : Request) (recs : List Endpoint) (e : String)
    (hacc : checkAndGetMediaTypeHeaderValue r.accept = Except.ok v)
    (hrec : p.records = (recs, none))
    (hm : m.marshalRecords recs = Except.error e) :
    Records m p emptyResponse r =
      ⟨[(contentTypeHeader, mediaTypeVersion1), (varyHeader, contentTypeHeader)],
       some 500,
       [(contentTypeHeader, mediaTypeVersion1), (varyHeader, contentTypeHeader)],
       ""⟩ := by
  have h1 := headerCheck_ok false emptyResponse r hacc
  simp only [Records, acceptHeaderCheck, h1, hrec, hm]
  simp [emptyResponse, setHeader, setAssoc, writeHeader, write,
    contentTypeHeader, contentTypePlaintext, varyHeader]

/-! ## Claims -/

/-- C1: for every supported version string `v`, validating a header
value equal to the media type built from `v` succeeds and returns `v`;
validating any other string (exact equality, no wildcard or prefix
matching) fails with an error whose message carries the full list of
supported versioned media types. -/
theorem C1_exact_media_type_negotiation :
    (∀ v, v ∈ stringsSplit supportedMediaVersions ',' →
        checkAndGetMediaTypeHeaderValue (mediaTypeVersion v) = Except.ok v)
  ∧ (∀ s, (∀ v, v ∈ stringsSplit supportedMediaVersions ',' →
        mediaTypeVersion v ≠ s) →
        ∃ msg, checkAndGetMediaTypeHeaderValue s = Except.error msg
          ∧ ∀ v, v ∈ stringsSplit supportedMediaVersions ',' →
              ∃ pre post, msg = pre ++ mediaTypeVersion v ++ post) := by
  constructor
  · intro v hv
    rw [stringsSplit_supported] at hv
    simp only [List.mem_singleton] at hv
    subst hv
    rfl
  · intro s hs
    have hne : mediaTypeVersion1 ≠ s := by
      have h1 := hs "1" (by rw [stringsSplit_supported]; simp)
      simpa [mediaTypeVersion1] using h1
    refine ⟨unsupportedMediaTypeMessage s, ?_, ?_⟩
    · rw [checkAndGet_spec, if_neg hne]
    · intro v hv
      rw [stringsSplit_supported] at hv
      simp only [List.mem_singleton] at hv
      subst hv
      refine ⟨"unsupported media type version: " ++ quoteChar ++ s ++ quoteChar
        ++ ". Supported media types are: " ++ quoteChar, quoteChar, ?_⟩
      simp [unsupportedMediaTypeMessage, supportedMediaTypesString_eq,
        mediaTypeVersion1, String.append_assoc]

/-- Witness for C1 at the supported version `"1"` and at the
unsupported header `application/json`. -/
theorem C1_exact_media_type_negotiation_witness :
    checkAndGetMediaTypeHeaderValue (mediaTypeVersion "1") = Except.ok "1"
  ∧ ∃ msg, checkAndGetMediaTypeHeaderValue "application/json" = Except.error msg
      ∧ ∀ v, v ∈ stringsSplit supportedMediaVersions ',' →
          ∃ pre post, msg = pre ++ mediaTypeVersion v ++ post := by
  refine ⟨?_, ?_⟩
  · exact C1_exact_media_type_negotiation.1 "1" (by rw [stringsSplit_supported]; simp)
  · exact C1_exact_media_type_negotiation.2 "application/json"
      (by
        intro v hv
        rw [stringsSplit_supported] at hv
        simp only [List.mem_singleton] at hv
        subst hv
        decide)

/-- C2: on each of the four operations, a missing/empty required header
yields `406 Not Acceptable` with `Content-Type: text/plain` and a
plaintext message naming the missing header; a present header that
fails negotiation yields `415 Unsupported Media Type` with
`Content-Type: text/plain` and a message embedding the negotiation
error.  The right-hand sides are independent of the provider and of the
marshaller: the handler stops and the provider is never invoked. -/
theorem C2_header_gate (m : Marshaller) (p : Provider) (r : Request) :
    (r.accept = "" →
        Records m p emptyResponse r
          = plainTextErrorResponse 406 "client must provide an accept header"
      ∧ Negotiate p emptyResponse r
          = plainTextErrorResponse 406 "client must provide an accept header")
  ∧ (r.contentType = "" →
        ApplyChanges p emptyResponse r
          = plainTextErrorResponse 406 "client must provide a content type"
      ∧ AdjustEndpoints m p emptyResponse r
          = plainTextErrorResponse 406 "client must provide a content type")
  ∧ (∀ e, r.accept ≠ "" →
      checkAndGetMediaTypeHeaderValue r.accept = Except.error e →
        Records m p emptyResponse r
          = plainTextErrorResponse 415
              ("client must provide a valid versioned media type in the accept header: " ++ e)
      ∧ Negotiate p emptyResponse r
          = plainTextErrorResponse 415
              ("client must provide a valid versioned media type in the accept header: " ++ e))
  ∧ (∀ e, r.contentType ≠ "" →
      checkAndGetMediaTypeHeaderValue r.contentType = Except.error e →
        ApplyChanges p emptyResponse r
          = plainTextErrorResponse 415
              ("client must provide a valid versioned media type in the content type: " ++ e)
      ∧ AdjustEndpoints m p emptyResponse r
          = plainTextErrorResponse 415
              ("client must provide a valid versioned media type in the content type: " ++ e))
  ∧ (∀ v, checkAndGetMediaTypeHeaderValue r.contentType = Except.ok v →
      r.accept = "" →
        AdjustEndpoints m p emptyResponse r
          = plainTextErrorResponse 406 "client must provide an accept header")
  ∧ (∀ v e, checkAndGetMediaTypeHeaderValue r.contentType = Except.ok v →
      r.accept ≠ "" →
      checkAndGetMediaTypeHeaderValue r.accept = Except.error e →
        AdjustEndpoints m p emptyResponse r
          = plainTextErrorResponse 415
              ("client must provide a valid versioned media type in the accept header: " ++ e)) := by
  refine ⟨?_, ?_, ?_, ?_, ?_, ?_⟩
  · intro ha
    have h := headerCheck_missing false r ha
    constructor
    · simp [Records, acceptHeaderCheck, h]
    · simp [Negotiate, acceptHeaderCheck, h]
  · intro hc
    have h := headerCheck_missing true r hc
    constructor
    · simp [ApplyChanges, contentTypeHeaderCheck, h]
    · simp [AdjustEndpoints, contentTypeHeaderCheck, h]
  · intro e hne he
    have h := headerCheck_unsupported false r hne he
    constructor
    · simp [Records, acceptHeaderCheck, h]
    · simp [Negotiate, acceptHeaderCheck, h]
  · intro e hne he
    have h := headerCheck_unsupported true r hne he
    constructor
    · simp [ApplyChanges, contentTypeHeaderCheck, h]
    · simp [AdjustEndpoints, contentTypeHeaderCheck, h]
  · intro v hv ha
    have h1 := headerCheck_ok true emptyResponse r hv
    have h2 := headerCheck_missing false r ha
    simp [AdjustEndpoints, contentTypeHeaderCheck, acceptHeaderCheck, h1, h2]
  · intro v e hv hne he
    have h1 := headerCheck_ok true emptyResponse r hv
    have h2 := headerCheck_unsupported false r hne he
    simp [AdjustEndpoints, contentTypeHeaderCheck, acceptHeaderCheck, h1, h2]

/-- Witness for C2: a request with no headers gets `406` on all four
operations, and a request with `application/json` headers gets `415`. -/
theorem C2_header_gate_witness :
    Records defaultMarshaller identityProvider emptyResponse missingHeadersRequest
      = plainTextErrorResponse 406 "client must provide an accept header"
  ∧ ApplyChanges identityProvider emptyResponse missingHeadersRequest
      = plainTextErrorResponse 406 "client must provide a content type"
  ∧ Records defaultMarshaller identityProvider emptyResponse badHeadersRequest
      = plainTextErrorResponse 415
          ("client must provide a valid versioned media type in the accept header: "
            ++ unsupportedMediaTypeMessage "application/json") := by
  refine ⟨?_, ?_, ?_⟩
  · exact ((C2_header_gate defaultMarshaller identityProvider missingHeadersRequest).1 rfl).1
  · exact ((C2_header_gate defaultMarshaller identityProvider missingHeadersRequest).2.1 rfl).1
  · exact ((C2_header_gate defaultMarshaller identityProvider badHeadersRequest).2.2.1
      (unsupportedMediaTypeMessage "application/json") (by decide)
      (by rw [checkAndGet_spec, if_neg (by decide)]; rfl)).1

/-- C3: on an apply-changes request whose content-type check passed and
whose body decodes, a provider `ApplyChanges` error yields
`500 Internal Server Error` with `Content-Type: text/plain` and an
empty body; a provider success yields `204 No Content` with no body. -/
theorem C3_applyChanges_provider_outcome {v : String} (p : Provider)
    (r : Request) (c : Changes)
    (hct : checkAndGetMediaTypeHeaderValue r.contentType = Except.ok v)
    (hdec : decodeChanges r.body = Except.ok c) :
    (∀ e, p.applyChanges c = some e →
        ApplyChanges p emptyResponse r = plainTextErrorResponse 500 "")
  ∧ (p.applyChanges c = none →
        ApplyChanges p emptyResponse r = bareStatusResponse 204) := by
  have h1 := headerCheck_ok true emptyResponse r hct
  constructor
  · intro e he
    simp only [ApplyChanges, contentTypeHeaderCheck, h1, hdec, he]
    simp [emptyResponse, setHeader, setAssoc, writeHeader,
      plainTextErrorResponse]
  · intro he
    simp only [ApplyChanges, contentTypeHeaderCheck, h1, hdec, he]
    simp [emptyResponse, writeHeader, bareStatusResponse]

/-- Witness for C3: a failing provider gives `500`/`text/plain`/empty
body, a succeeding one gives `204`, on a concrete valid request. -/
theorem C3_applyChanges_provider_outcome_witness :
    ApplyChanges failingProvider emptyResponse validChangesRequest
      = plainTextErrorResponse 500 ""
  ∧ ApplyChanges identityProvider emptyResponse validChangesRequest
      = bareStatusResponse 204 := by
  constructor
  · exact (C3_applyChanges_provider_outcome failingProvider validChangesRequest
      ⟨[sampleEndpoint], [], [], []⟩ rfl rfl).1 "apply backend error" rfl
  · exact (C3_applyChanges_provider_outcome identityProvider validChangesRequest
      ⟨[sampleEndpoint], [], [], []⟩ rfl rfl).2 rfl

/-- C4: on apply-changes and adjust-endpoints requests whose header
checks passed but whose body fails to decode, the response is
`400 Bad Request` with `Content-Type: text/plain` and a message
embedding the decode error; the right-hand sides are provider-free, so
the provider is not called. -/
theorem C4_decode_failure {v : String} (m : Marshaller) (p : Provider)
    (r : Request)
    (hct : checkAndGetMediaTypeHeaderValue r.contentType = Except.ok v) :
    (∀ e, decodeChanges r.body = Except.error e →
        ApplyChanges p emptyResponse r
          = plainTextErrorResponse 400 ("error decoding changes: " ++ e))
  ∧ (∀ w e, checkAndGetMediaTypeHeaderValue r.accept = Except.ok w →
      decodeEndpoints r.body = Except.error e →
        AdjustEndpoints m p emptyResponse r
          = plainTextErrorResponse 400 ("failed to decode request body: " ++ e)) := by
  have h1 := headerCheck_ok true emptyResponse r hct
  constructor
  · intro e he
    simp only [ApplyChanges, contentTypeHeaderCheck, h1, he]
    simp [emptyResponse, setHeader, setAssoc, writeHeader, write,
      plainTextErrorResponse]
  · intro w e hacc he
    have h2 := headerCheck_ok false emptyResponse r hacc
    simp only [AdjustEndpoints, contentTypeHeaderCheck, acceptHeaderCheck,
      h1, h2, he]
    simp [emptyResponse, setHeader, setAssoc, writeHeader, write,
      plainTextErrorResponse]

/-- Witness for C4 on a request whose body is the JSON string `"x"`. -/
theorem C4_decode_failure_witness :
    ApplyChanges identityProvider emptyResponse badBodyRequest
      = plainTextErrorResponse 400
          ("error decoding changes: " ++
            "json: cannot unmarshal value into Go value of type plan.Changes")
  ∧ AdjustEndpoints defaultMarshaller identityProvider emptyResponse badBodyRequest
      = plainTextErrorResponse 400
          ("failed to decode request body: " ++
            "json: cannot unmarshal value into Go value of type []*endpoint.Endpoint") := by
  constructor
  · exact (C4_decode_failure defaultMarshaller identityProvider badBodyRequest rfl).1
      "json: cannot unmarshal value into Go value of type plan.Changes" rfl
  · exact (C4_decode_failure defaultMarshaller identityProvider badBodyRequest rfl).2
      "1" "json: cannot unmarshal value into Go value of type []*endpoint.Endpoint" rfl rfl

/-- C5: on an adjust-endpoints request that reaches the provider, if
`AdjustEndpoints` returns an endpoint sequence together with an error,
the response still has status `500` and its body is the JSON
serialization of the returned sequence. -/
theorem C5_adjust_error_keeps_body {v w : String} (p : Provider) (r : Request)
    (eps res : List Endpoint) (e : String)
    (hct : checkAndGetMediaTypeHeaderValue r.contentType = Except.ok v)
    (hacc : checkAndGetMediaTypeHeaderValue r.accept = Except.ok w)
    (hdec : decodeEndpoints r.body = Except.ok eps)
    (hp : p.adjustEndpoints eps = (res, some e)) :
    (AdjustEndpoints defaultMarshaller p emptyResponse r).status = some 500
  ∧ (AdjustEndpoints defaultMarshaller p emptyResponse r).body
      = renderJson (endpointsToJson res) := by
  rw [adjustEndpoints_provider_error defaultMarshaller p r eps res e
    (renderJson (endpointsToJson res)) none hct hacc hdec hp rfl]
  exact ⟨rfl, rfl⟩

/-- Witness for C5: the failing provider returns its input together with
an error; the response is `500` with the serialized input as body. -/
theorem C5_adjust_error_keeps_body_witness :
    (AdjustEndpoints defaultMarshaller failingProvider emptyResponse
        validAdjustRequest).status = some 500
  ∧ (AdjustEndpoints defaultMarshaller failingProvider emptyResponse
        validAdjustRequest).body = renderJson (endpointsToJson [sampleEndpoint]) :=
  C5_adjust_error_keeps_body failingProvider validAdjustRequest
    [sampleEndpoint] [sampleEndpoint] "adjust backend error"
    rfl rfl (decodeEndpoints_roundtrip [sampleEndpoint]) rfl

/-- C6 counterexample: with a provider returning zero records and no
error and a valid `Accept` header, the body written by
`json.NewEncoder(w).Encode` is `[]` followed by a newline, not the
claimed exact string `[]`. -/
theorem C6_counterexample :
    (Records defaultMarshaller identityProvider emptyResponse validGetRequest).body
      = "[]" ++ "\n"
  ∧ ¬ ((Records defaultMarshaller identityProvider emptyResponse validGetRequest).body
      = "[]") := by
  constructor
  · rfl
  · decide

/-- C6 (amended): with a provider returning zero records and no error
and a valid `Accept` header, list-records yields status `200`, the
negotiated media type as `Content-Type`, `Vary: Content-Type`, and body
`[]` followed by the encoder's trailing newline. -/
theorem C6_records_empty {v : String} (p : Provider) (r : Request)
    (hacc : checkAndGetMediaTypeHeaderValue r.accept = Except.ok v)
    (hrec : p.records = ([], none)) :
    Records defaultMarshaller p emptyResponse r =
      ⟨[(contentTypeHeader, mediaTypeVersion1), (varyHeader, contentTypeHeader)],
       some 200,
       [(contentTypeHeader, mediaTypeVersion1), (varyHeader, contentTypeHeader)],
       "[]" ++ "\n"⟩ :=
  records_success defaultMarshaller p r [] "[]" hacc hrec rfl

/-- Witness for C6 (amended) at the concrete empty-records provider. -/
theorem C6_records_empty_witness :
    Records defaultMarshaller identityProvider emptyResponse validGetRequest =
      ⟨[(contentTypeHeader, mediaTypeVersion1), (varyHeader, contentTypeHeader)],
       some 200,
       [(contentTypeHeader, mediaTypeVersion1), (varyHeader, contentTypeHeader)],
       "[]" ++ "\n"⟩ :=
  C6_records_empty identityProvider validGetRequest rfl rfl

/-- C7: round-trip — with a provider whose `AdjustEndpoints` is the
identity with no error, POSTing the serialization of any endpoint array
with valid headers yields `200`, a body equal to the serialization of
that same array, and that serialization decodes back to the input. -/
theorem C7_adjust_roundtrip (p : Provider) (eps : List Endpoint)
    (hp : ∀ xs, p.adjustEndpoints xs = (xs, none)) :
    (AdjustEndpoints defaultMarshaller p emptyResponse
        ⟨mediaTypeVersion1, mediaTypeVersion1, endpointsToJson eps⟩).status
      = some 200
  ∧ (AdjustEndpoints defaultMarshaller p emptyResponse
        ⟨mediaTypeVersion1, mediaTypeVersion1, endpointsToJson eps⟩).body
      = renderJson (endpointsToJson eps)
  ∧ decodeEndpoints (endpointsToJson eps) = Except.ok eps := by
  rw [adjustEndpoints_provider_ok defaultMarshaller p
    ⟨mediaTypeVersion1, mediaTypeVersion1, endpointsToJson eps⟩ eps eps
    (renderJson (endpointsToJson eps)) none rfl rfl
    (decodeEndpoints_roundtrip eps) (hp eps) rfl]
  exact ⟨rfl, rfl, decodeEndpoints_roundtrip eps⟩

/-- Witness for C7 at a one-endpoint array and the identity provider. -/
theorem C7_adjust_roundtrip_witness :
    (AdjustEndpoints defaultMarshaller identityProvider emptyResponse
        ⟨mediaTypeVersion1, mediaTypeVersion1, endpointsToJson [sampleEndpoint]⟩).status
      = some 200
  ∧ (AdjustEndpoints defaultMarshaller identityProvider emptyResponse
        ⟨mediaTypeVersion1, mediaTypeVersion1, endpointsToJson [sampleEndpoint]⟩).body
      = renderJson (endpointsToJson [sampleEndpoint])
  ∧ decodeEndpoints (endpointsToJson [sampleEndpoint]) = Except.ok [sampleEndpoint] :=
  C7_adjust_roundtrip identityProvider [sampleEndpoint] (fun _ => rfl)

/-- C8: on a negotiate request with a valid `Accept` header, the body is
exactly the JSON serialization of the provider's domain filter, the
`Content-Type` is the negotiated media type, and no `Vary` header is
sent. -/
theorem C8_negotiate_serializes_filter {v : String} (p : Provider)
    (r : Request) (j : Json)
    (hacc : checkAndGetMediaTypeHeaderValue r.accept = Except.ok v)
    (hdf : p.getDomainFilter = some j) :
    Negotiate p emptyResponse r =
      ⟨[(contentTypeHeader, mediaTypeVersion1)], some 200,
       [(contentTypeHeader, mediaTypeVersion1)], renderJson j⟩
  ∧ lookupHeader (Negotiate p emptyResponse r).sent varyHeader = none := by
  have h1 := headerCheck_ok false emptyResponse r hacc
  have h : Negotiate p emptyResponse r =
      ⟨[(contentTypeHeader, mediaTypeVersion1)], some 200,
       [(contentTypeHeader, mediaTypeVersion1)], renderJson j⟩ := by
    simp only [Negotiate, acceptHeaderCheck, h1, hdf, marshalDomainFilter]
    simp [emptyResponse, setHeader, setAssoc, write]
  exact ⟨h, by rw [h]; rfl⟩

/-- Witness for C8 at a concrete domain-filter value. -/
theorem C8_negotiate_serializes_filter_witness :
    Negotiate identityProvider emptyResponse validGetRequest =
      ⟨[(contentTypeHeader, mediaTypeVersion1)], some 200,
       [(contentTypeHeader, mediaTypeVersion1)],
       renderJson (Json.obj [("filters", Json.arr [Json.str "example.org"])])⟩
  ∧ lookupHeader (Negotiate identityProvider emptyResponse validGetRequest).sent
      varyHeader = none :=
  C8_negotiate_serializes_filter identityProvider validGetRequest
    (Json.obj [("filters", Json.arr [Json.str "example.org"])]) rfl rfl

/-- C9 counterexample: on an adjust-endpoints request whose provider
call succeeds but whose marshalling fails, the source discards the
marshal error (`out, _ := json.Marshal(&pve)`) and writes anyway, so
the response has status `200`, not the claimed `500`. -/
theorem C9_counterexample :
    (AdjustEndpoints failingMarshaller identityProvider emptyResponse
        validAdjustRequest).status = some 200
  ∧ ¬ ((AdjustEndpoints failingMarshaller identityProvider emptyResponse
        validAdjustRequest).status = some 500) := by
  constructor
  · rfl
  · decide

/-- C9 (amended): a marshal failure on an otherwise-successful provider
result yields `500` with an empty body on the negotiate and
list-records operations; on adjust-endpoints the marshal error is
discarded and the response has status `200` with whatever bytes the
marshaller returned. -/
theorem C9_marshal_failure_behaviour :
    (∀ (p : Provider) (r : Request) (v : String),
        checkAndGetMediaTypeHeaderValue r.accept = Except.ok v →
        p.getDomainFilter = none →
        Negotiate p emptyResponse r = bareStatusResponse 500)
  ∧ (∀ (m : Marshaller) (p : Provider) (r : Request) (v : String)
        (recs : List Endpoint) (e : String),
        checkAndGetMediaTypeHeaderValue r.accept = Except.ok v →
        p.records = (recs, none) →
        m.marshalRecords recs = Except.error e →
        (Records m p emptyResponse r).status = some 500
      ∧ (Records m p emptyResponse r).body = "")
  ∧ (∀ (m : Marshaller) (p : Provider) (r : Request) (v w : String)
        (eps res : List Endpoint) (out e : String),
        checkAndGetMediaTypeHeaderValue r.contentType = Except.ok v →
        checkAndGetMediaTypeHeaderValue r.accept = Except.ok w →
        decodeEndpoints r.body = Except.ok eps →
        p.adjustEndpoints eps = (res, none) →
        m.marshalEndpoints res = (out, some e) →
        (AdjustEndpoints m p emptyResponse r).status = some 200
      ∧ (AdjustEndpoints m p emptyResponse r).body = out) := by
  refine ⟨?_, ?_, ?_⟩
  · intro p r v hacc hdf
    have h1 := headerCheck_ok false emptyResponse r hacc
    simp only [Negotiate, acceptHeaderCheck, h1, hdf, marshalDomainFilter]
    simp [emptyResponse, writeHeader, bareStatusResponse]
  · intro m p r v recs e hacc hrec hm
    rw [records_encode_failure m p r recs e hacc hrec hm]
    exact ⟨rfl, rfl⟩
  · intro m p r v w eps res out e hct hacc hdec hp hm
    rw [adjustEndpoints_provider_ok m p r eps res out (some e) hct hacc hdec hp hm]
    exact ⟨rfl, rfl⟩

/-- Witness for C9 (amended) at concrete failing marshallers and an
unmarshalable domain filter. -/
theorem C9_marshal_failure_behaviour_witness :
    Negotiate failingProvider emptyResponse validGetRequest = bareStatusResponse 500
  ∧ ((Records failingMarshaller identityProvider emptyResponse validGetRequest).status
        = some 500
      ∧ (Records failingMarshaller identityProvider emptyResponse validGetRequest).body
        = "")
  ∧ ((AdjustEndpoints failingMarshaller identityProvider emptyResponse
        validAdjustRequest).status = some 200
      ∧ (AdjustEndpoints failingMarshaller identityProvider emptyResponse
        validAdjustRequest).body = "") := by
  refine ⟨?_, ?_, ?_⟩
  · exact C9_marshal_failure_behaviour.1 failingProvider validGetRequest "1" rfl rfl
  · exact C9_marshal_failure_behaviour.2.1 failingMarshaller identityProvider
      validGetRequest "1" [] "json: unsupported type" rfl rfl rfl
  · exact C9_marshal_failure_behaviour.2.2 failingMarshaller identityProvider
      validAdjustRequest "1" "1" [sampleEndpoint] [sampleEndpoint] ""
      "json: unsupported type" rfl rfl (decodeEndpoints_roundtrip [sampleEndpoint])
      rfl rfl

/-- C10: on an adjust-endpoints request whose provider call errors, the
status line (`500`) and the `text/plain` content type are finalized
before the body is written; the later assignments of the media type and
`Vary` touch only the pending map, so the client sees a `500` response
with `Content-Type: text/plain`, no `Vary` header, and the
JSON-serialized endpoint sequence as body. -/
theorem C10_adjust_error_frame {v w : String} (p : Provider) (r : Request)
    (eps res : List Endpoint) (e : String)
    (hct : checkAndGetMediaTypeHeaderValue r.contentType = Except.ok v)
    (hacc : checkAndGetMediaTypeHeaderValue r.accept = Except.ok w)
    (hdec : decodeEndpoints r.body = Except.ok eps)
    (hp : p.adjustEndpoints eps = (res, some e)) :
    AdjustEndpoints defaultMarshaller p emptyResponse r =
      ⟨[(contentTypeHeader, mediaTypeVersion1), (varyHeader, contentTypeHeader)],
       some 500, [(contentTypeHeader, contentTypePlaintext)],
       renderJson (endpointsToJson res)⟩
  ∧ lookupHeader (AdjustEndpoints defaultMarshaller p emptyResponse r).sent
      contentTypeHeader = some contentTypePlaintext
  ∧ lookupHeader (AdjustEndpoints defaultMarshaller p emptyResponse r).sent
      varyHeader = none := by
  have h := adjustEndpoints_provider_error defaultMarshaller p r eps res e
    (renderJson (endpointsToJson res)) none hct hacc hdec hp rfl
  exact ⟨h, by rw [h]; rfl, by rw [h]; rfl⟩

/-- Witness for C10 at the concrete failing provider. -/
theorem C10_adjust_error_frame_witness :
    AdjustEndpoints defaultMarshaller failingProvider emptyResponse validAdjustRequest =
      ⟨[(contentTypeHeader, mediaTypeVersion1), (varyHeader, contentTypeHeader)],
       some 500, [(contentTypeHeader, contentTypePlaintext)],
       renderJson (endpointsToJson [sampleEndpoint])⟩
  ∧ lookupHeader (AdjustEndpoints defaultMarshaller failingProvider emptyResponse
      validAdjustRequest).sent contentTypeHeader = some contentTypePlaintext
  ∧ lookupHeader (AdjustEndpoints defaultMarshaller failingProvider emptyResponse
      validAdjustRequest).sent varyHeader = none :=
  C10_adjust_error_frame failingProvider validAdjustRequest
    [sampleEndpoint] [sampleEndpoint] "adjust backend error"
    rfl rfl (decodeEndpoints_roundtrip [sampleEndpoint]) rfl

end ExternalDnsGlesys
